import Mathlib

/-!
# Verification of the insulin-dose calculation engine

Shallow embedding of the dose-calculation core of the `native` diabetes
self-management backend (files `backend/constants.py` and
`backend/meal_insulin.py`), together with theorems settling the frozen
claims about its specification.

Modelling conventions:
* Python floats are modelled as exact rationals (`ℚ`);
* Python `dict`s of constants are modelled as association lists kept in
  insertion order;
* fallible computations (Python `None` returns, raised exceptions) return
  `Option`;
* `datetime` values enter the engine only through their `hour` field, so
  times are modelled by an hour value `ℕ`, and the ambient wall clock
  (`datetime.now()`) by an explicit `wall_clock_hour` parameter;
* Python `round(x, n)` is modelled exactly as round-half-to-even at `n`
  decimal digits on `ℚ`.
-/

/-- Association-list lookup, modelling Python `d[k]` / `k in d` on a
`dict` whose entries are listed in insertion order. -/
def alookup {α : Type} (l : List (String × α)) (k : String) : Option α :=
  match l with
  | [] => none
  | (k', v) :: t => if k = k' then some v else alookup t k

/-! ## Unit converter (`backend/constants.py`) -/

/-- `Constants.VOLUME_MEASUREMENTS` (constants.py:215-225), unit → ml. -/
def volume_base : List (String × ℚ) :=
  [("cup", 240), ("half_cup", 120), ("quarter_cup", 60), ("tablespoon", 15),
   ("teaspoon", 5), ("bowl", 400), ("v_plate", 350), ("v_small_plate", 175),
   ("ml", 1)]

/-- `Constants.WEIGHT_MEASUREMENTS` (constants.py:227-235), unit → grams. -/
def weight_base : List (String × ℚ) :=
  [("palm", 85), ("handful", 30), ("fist", 150), ("w_plate", 300),
   ("w_small_plate", 150), ("g", 1), ("kg", 1000)]

/-- `Constants.convert_to_standard` (constants.py:512-521): convert a
measurement to its base unit (ml or g); `none` models Python `None`.
The volume table is consulted first, then the weight table, exactly as in
the `if from_unit in self.volume_base / elif ... weight_base` chain. -/
def convert_to_standard (amount : ℚ) (from_unit : String) : Option ℚ :=
  match alookup volume_base from_unit with
  | some c => some (amount * c)
  | none =>
    match alookup weight_base from_unit with
    | some c => some (amount * c)
    | none => none

/-- `Constants.convert_between_units` (constants.py:599-619): convert to the
base unit, then divide by the target unit's table entry.  Note the target
lookup does not check that the target unit belongs to the same measurement
family as the source unit. -/
def convert_between_units (amount : ℚ) (from_unit to_unit : String) : Option ℚ :=
  match convert_to_standard amount from_unit with
  | none => none
  | some base_amount =>
    match alookup volume_base to_unit with
    | some c => some (base_amount / c)
    | none =>
      match alookup weight_base to_unit with
      | some c => some (base_amount / c)
      | none => none

/-! ## Python `round` -/

/-- Round-half-to-even on `ℚ`, the rounding mode of Python's built-in
`round`. -/
def round_half_even (q : ℚ) : ℤ :=
  let f := ⌊q⌋
  let r := q - f
  if r < 1/2 then f
  else if 1/2 < r then f + 1
  else if f % 2 = 0 then f else f + 1

/-- Python `round(q, 1)` on exact rationals. -/
def py_round1 (q : ℚ) : ℚ := (round_half_even (q * 10) : ℚ) / 10

/-- Python `round(q, 2)` on exact rationals. -/
def py_round2 (q : ℚ) : ℚ := (round_half_even (q * 100) : ℚ) / 100

/-! ## Patient constants (`ConstantConfig`, constants.py:10-205) -/

/-- One entry of `time_of_day_factors`: an `[start, end)` hour range and a
multiplier (constants.py:45-66). -/
structure TimeOfDayEntry where
  startHour : ℕ
  endHour : ℕ
  factor : ℚ

/-- The fields of the patient constants read by the dose engine
(`ConstantConfig`, constants.py:10-66). -/
structure PatientConstants where
  insulin_to_carb_ratio : ℚ
  correction_factor : ℚ
  target_glucose : ℚ
  protein_factor : ℚ
  fat_factor : ℚ
  activity_coefficients : List (String × ℚ)
  meal_timing_factors : List (String × ℚ)
  time_of_day_factors : List (String × TimeOfDayEntry)

/-- Default `activity_coefficients` (constants.py:18-24). -/
def default_activity_coefficients : List (String × ℚ) :=
  [("-2", 1.2), ("-1", 1.1), ("0", 1), ("1", 0.9), ("2", 0.8)]

/-- Default `meal_timing_factors` (constants.py:39-44). -/
def default_meal_timing_factors : List (String × ℚ) :=
  [("breakfast", 1.2), ("lunch", 1), ("dinner", 0.9), ("snack", 1)]

/-- Default `time_of_day_factors` (constants.py:45-66). -/
def default_time_of_day_factors : List (String × TimeOfDayEntry) :=
  [("early_morning", ⟨0, 6, 1.1⟩), ("morning", ⟨6, 10, 1.2⟩),
   ("daytime", ⟨10, 22, 1⟩), ("late_night", ⟨22, 24, 0.9⟩)]

/-- The `factor` field of each default `disease_factors` entry
(constants.py:67-92).  `calculate_health_factors` reads only this field. -/
def default_disease_factors : List (String × ℚ) :=
  [("type_1_diabetes", 1), ("type_2_diabetes", 0.8), ("gestational_diabetes", 1.2),
   ("insulin_resistance", 0.7), ("thyroid_disorders", 1.1), ("celiac_disease", 1.1)]

/-- The `factor` field of each default `medication_factors` entry
(constants.py:95-205; the duplicated dict keys collapse to their last
occurrence, as in Python). -/
def default_medication_factors : List (String × ℚ) :=
  [("insulin_glargine", 1), ("insulin_detemir", 1), ("insulin_degludec", 1),
   ("nph_insulin", 1), ("oral_contraceptives", 1.2), ("injectable_contraceptives", 1.3),
   ("corticosteroids", 1.4), ("beta_blockers", 1.2), ("thiazide_diuretics", 1.1),
   ("metformin", 0.9), ("thiazolidinediones", 0.8)]

/-- The default patient constants (`ConstantConfig()` field defaults,
constants.py:13-17). -/
def default_patient_constants : PatientConstants :=
  { insulin_to_carb_ratio := 10
    correction_factor := 50
    target_glucose := 100
    protein_factor := 0.5
    fat_factor := 0.2
    activity_coefficients := default_activity_coefficients
    meal_timing_factors := default_meal_timing_factors
    time_of_day_factors := default_time_of_day_factors }

/-! ## Activity impact (`calculate_activity_impact`, meal_insulin.py:91-124) -/

/-- A meal-submission activity's `duration` field, which Python receives
either as a number or as an `"HH:MM"` string. -/
inductive PyDuration where
  | num (q : ℚ)
  | str (s : String)

/-- One activity of a meal submission: `activity.get('level', 0)` and
`activity.get('duration', 0)` (meal_insulin.py:99-100). -/
structure ActivityRecord where
  level : ℤ
  duration : PyDuration

/-- Python `str.split(':')` on the character list of the string. -/
def split_colon : List Char → List (List Char)
  | [] => [[]]
  | c :: t =>
    let r := split_colon t
    if c = ':' then [] :: r
    else
      match r with
      | h :: rest => (c :: h) :: rest
      | [] => [[c]]

/-- Digit-string accumulator for `parse_int`. -/
def digits_to_nat : List Char → ℕ → Option ℕ
  | [], acc => some acc
  | c :: t, acc =>
    if '0' ≤ c ∧ c ≤ '9' then digits_to_nat t (acc * 10 + (c.toNat - '0'.toNat))
    else none

/-- A nonempty all-digit character list as a natural number. -/
def parse_nat (l : List Char) : Option ℕ :=
  match l with
  | [] => none
  | _ => digits_to_nat l 0

/-- Python `int()` on a character list: an optional sign followed by a
nonempty run of decimal digits (Python additionally strips surrounding
whitespace and accepts digit-group underscores, which no input considered
here contains). -/
def parse_int (l : List Char) : Option ℤ :=
  match l with
  | '-' :: t => (parse_nat t).map (fun n => -(n : ℤ))
  | '+' :: t => (parse_nat t).map (fun n => (n : ℤ))
  | _ => (parse_nat l).map (fun n => (n : ℤ))

/-- `hours, minutes = map(int, duration.split(':')); hours + minutes / 60`
(meal_insulin.py:105-106); `none` models the `except` path, reached when
the split does not produce exactly two parts or either part is not an
integer literal. -/
def parse_hhmm (s : String) : Option ℚ :=
  match split_colon s.toList with
  | [h, m] =>
    match parse_int h, parse_int m with
    | some hv, some mv => some ((hv : ℚ) + (mv : ℚ) / 60)
    | _, _ => none
  | _ => none

/-- The duration in hours actually used for an activity: numeric durations
pass through, string durations are parsed as `"HH:MM"`, and a malformed
string falls back to `0` (`except: duration = 0`, meal_insulin.py:107-108). -/
def activity_duration_hours (d : PyDuration) : ℚ :=
  match d with
  | .num q => q
  | .str s => (parse_hhmm s).getD 0

/-- The per-activity weighted impact (meal_insulin.py:110-119):
coefficient looked up by `str(level)` with default `1.0`, duration weight
`min(duration / 2, 1)`, weighted impact `1 + (coefficient - 1) * weight`. -/
def activity_weight (coeffs : List (String × ℚ)) (a : ActivityRecord) : ℚ :=
  let coefficient := (alookup coeffs (toString a.level)).getD 1
  let duration_weight := min (activity_duration_hours a.duration / 2) 1
  1 + (coefficient - 1) * duration_weight

/-- `calculate_activity_impact` (meal_insulin.py:91-124). -/
def calculate_activity_impact (coeffs : List (String × ℚ))
    (activities : List ActivityRecord) : ℚ :=
  match activities with
  | [] => 1
  | _ => activities.foldl (fun acc a => acc * activity_weight coeffs a) 1

/-! ## Meal timing factor (`get_meal_timing_factor`, meal_insulin.py:127-155) -/

/-- First `time_of_day_factors` entry whose `[start, end)` hour range
contains `hour` (the `for period, data in ...` loop, meal_insulin.py:149-152). -/
def find_time_of_day_factor (tdf : List (String × TimeOfDayEntry)) (hour : ℕ) : Option ℚ :=
  match tdf with
  | [] => none
  | (_, e) :: t =>
    if e.startHour ≤ hour ∧ hour < e.endHour then some e.factor
    else find_time_of_day_factor t hour

/-- `get_meal_timing_factor(meal_type, time=None)` (meal_insulin.py:127-155).
`wall_clock_hour` is the hour of the ambient `datetime.now()`, consulted
exactly when the optional `time` argument is omitted (`none`).  Python
indexes `time_of_day_factors['daytime']` directly in the fallback and would
raise `KeyError` were that key absent; the shipped tables always contain
`daytime`, so the final `getD 1` is never exercised on them. -/
def get_meal_timing_factor (mtf : List (String × ℚ))
    (tdf : List (String × TimeOfDayEntry)) (wall_clock_hour : ℕ)
    (meal_type : String) (time : Option ℕ) : ℚ :=
  let hour := time.getD wall_clock_hour
  let base_factor := (alookup mtf meal_type).getD 1
  match find_time_of_day_factor tdf hour with
  | some f => base_factor * f
  | none => base_factor * (((alookup tdf "daytime").map TimeOfDayEntry.factor).getD 1)

/-! ## Health factors (`calculate_health_factors`, meal_insulin.py:977-1014) -/

/-- `calculate_health_factors` (meal_insulin.py:977-1014): the product of the
`factor` entries of the user's active conditions times the product of those
of the active medications, with no clamping.  The association lists hold the
entries that carry a numeric `factor` key; an absent entry models both a
missing dict key and a missing `factor` field, either of which the code
skips. -/
def calculate_health_factors (disease_factors medication_factors : List (String × ℚ))
    (active_conditions active_medications : List String) : ℚ :=
  let disease_multiplier := active_conditions.foldl
    (fun acc c => match alookup disease_factors c with
      | some f => acc * f
      | none => acc) 1
  let medication_multiplier := active_medications.foldl
    (fun acc m => match alookup medication_factors m with
      | some f => acc * f
      | none => acc) 1
  disease_multiplier * medication_multiplier

/-! ## Medication timing factor
(`_calculate_medication_timing_factor`, meal_insulin.py:21-69) -/

/-- `_calculate_medication_timing_factor` (meal_insulin.py:21-69).  The
`try` body converts `daily_times` to dose timestamps and, when that list is
empty, returns `med_factor` (lines 46-47).  Otherwise execution reaches the
call to `safe_float_conversion` (line 53) — a name defined nowhere in the
repository and not imported — so a `NameError` is raised and the blanket
`except Exception` handler at line 67 returns `med_factor`.  (A malformed
entry of `daily_times` raises even earlier, with the same outcome.)  The
three-phase timing branches at lines 57-65 are therefore unreachable dead
code, and the function returns the medication's static factor on every
path; `current_time` and the medication's onset/peak/duration data are
never successfully consulted. -/
def calculate_medication_timing_factor (_current_time_hours : ℚ)
    (daily_times : List String) (med_factor : ℚ) : ℚ :=
  match daily_times with
  | [] => med_factor
  | _ :: _ => med_factor

/-! ## Dose engine (`calculate_suggested_insulin`, meal_insulin.py:250-360) -/

/-- The nutrition totals consumed by the engine (the fields of the
`calculate_meal_nutrition` result that `calculate_suggested_insulin`
reads). -/
structure Nutrition where
  carbs : ℚ
  protein : ℚ
  fat : ℚ
  absorption_factor : ℚ

/-- The five adjustment inputs of the final dose formula, as resolved by
either branch of `calculate_suggested_insulin` (meal_insulin.py:268-303):
from the frontend `calculationFactors` when present, else from the default
calculators. -/
structure AdjustmentFactors where
  absorption_factor : ℚ
  meal_timing_factor : ℚ
  activity_coefficient : ℚ
  health_multiplier : ℚ
  active_insulin : ℚ

/-- `protein_carb_equiv` (meal_insulin.py:258). -/
def protein_carb_equiv (pc : PatientConstants) (n : Nutrition) : ℚ :=
  n.protein * pc.protein_factor

/-- `fat_carb_equiv` (meal_insulin.py:259). -/
def fat_carb_equiv (pc : PatientConstants) (n : Nutrition) : ℚ :=
  n.fat * pc.fat_factor

/-- `total_carb_equiv` (meal_insulin.py:262). -/
def total_carb_equiv (pc : PatientConstants) (n : Nutrition) : ℚ :=
  n.carbs + protein_carb_equiv pc n + fat_carb_equiv pc n

/-- `base_insulin` (meal_insulin.py:265). -/
def base_insulin (pc : PatientConstants) (n : Nutrition) : ℚ :=
  total_carb_equiv pc n / pc.insulin_to_carb_ratio

/-- `adjusted_insulin` (meal_insulin.py:306). -/
def adjusted_insulin (pc : PatientConstants) (n : Nutrition)
    (f : AdjustmentFactors) : ℚ :=
  base_insulin pc n * f.absorption_factor * f.meal_timing_factor *
    f.activity_coefficient

/-- `correction_insulin` (meal_insulin.py:309-314): `0` without a
blood-glucose reading; otherwise `(bg - target) / correction_factor`,
zeroed when negative. -/
def correction_insulin (target_glucose correction_factor : ℚ)
    (blood_glucose : Option ℚ) : ℚ :=
  match blood_glucose with
  | none => 0
  | some bg =>
    let c := (bg - target_glucose) / correction_factor
    if c < 0 then 0 else c

/-- `pre_active_total` (meal_insulin.py:317). -/
def pre_active_total (pc : PatientConstants) (n : Nutrition)
    (f : AdjustmentFactors) (blood_glucose : Option ℚ) : ℚ :=
  adjusted_insulin pc n f +
    correction_insulin pc.target_glucose pc.correction_factor blood_glucose

/-- `post_active_total` (meal_insulin.py:320). -/
def post_active_total (pc : PatientConstants) (n : Nutrition)
    (f : AdjustmentFactors) (blood_glucose : Option ℚ) : ℚ :=
  max 0 (pre_active_total pc n f blood_glucose - f.active_insulin)

/-- `final_insulin` (meal_insulin.py:323). -/
def final_insulin (pc : PatientConstants) (n : Nutrition)
    (f : AdjustmentFactors) (blood_glucose : Option ℚ) : ℚ :=
  post_active_total pc n f blood_glucose * f.health_multiplier

/-- `total_insulin` (meal_insulin.py:326-328): `max(0, round(final, 1))`,
clamped up to `0.5` when `pre_active_total > 0` left it below `0.5`. -/
def total_insulin (pc : PatientConstants) (n : Nutrition)
    (f : AdjustmentFactors) (blood_glucose : Option ℚ) : ℚ :=
  let t := max 0 (py_round1 (final_insulin pc n f blood_glucose))
  if 0 < pre_active_total pc n f blood_glucose ∧ t < 1/2 then 1/2 else t

/-- The `result` dict of `calculate_suggested_insulin`
(meal_insulin.py:330-353): the total and the audited breakdown. -/
structure InsulinResult where
  total : ℚ
  carbs : ℚ
  protein_carb_equiv : ℚ
  fat_carb_equiv : ℚ
  total_carb_equiv : ℚ
  base_insulin : ℚ
  adjusted_insulin : ℚ
  correction_insulin : ℚ
  pre_active_total : ℚ
  active_insulin : ℚ
  post_active_total : ℚ
  activity_coefficient : ℚ
  health_multiplier : ℚ
  absorption_factor : ℚ
  meal_timing_factor : ℚ

/-- The successfully computed result record (meal_insulin.py:330-353),
with Python's two-decimal rounding of the breakdown fields. -/
def suggested_insulin_result (pc : PatientConstants) (n : Nutrition)
    (f : AdjustmentFactors) (blood_glucose : Option ℚ) : InsulinResult :=
  { total := total_insulin pc n f blood_glucose
    carbs := py_round2 n.carbs
    protein_carb_equiv := py_round2 (protein_carb_equiv pc n)
    fat_carb_equiv := py_round2 (fat_carb_equiv pc n)
    total_carb_equiv := py_round2 (total_carb_equiv pc n)
    base_insulin := py_round2 (base_insulin pc n)
    adjusted_insulin := py_round2 (adjusted_insulin pc n f)
    correction_insulin := py_round2
      (correction_insulin pc.target_glucose pc.correction_factor blood_glucose)
    pre_active_total := py_round2 (pre_active_total pc n f blood_glucose)
    active_insulin := py_round2 f.active_insulin
    post_active_total := py_round2 (post_active_total pc n f blood_glucose)
    activity_coefficient := py_round2 f.activity_coefficient
    health_multiplier := py_round2 f.health_multiplier
    absorption_factor := f.absorption_factor
    meal_timing_factor := f.meal_timing_factor }

/-- `calculate_suggested_insulin` (meal_insulin.py:250-360), with the
adjustment factors already resolved.  The two division-by-zero
possibilities — `insulin_to_carb_ratio` at meal_insulin.py:265 and, when a
blood-glucose reading is present, `correction_factor` at
meal_insulin.py:311 — raise `ZeroDivisionError` in Python, which the
function re-raises; they are modelled by `none`. -/
def calculate_suggested_insulin (pc : PatientConstants) (n : Nutrition)
    (f : AdjustmentFactors) (blood_glucose : Option ℚ) : Option InsulinResult :=
  if pc.insulin_to_carb_ratio = 0 then none
  else if blood_glucose.isSome ∧ pc.correction_factor = 0 then none
  else some (suggested_insulin_result pc n f blood_glucose)

/-- The default-factor branch of `calculate_suggested_insulin`
(meal_insulin.py:297-303), reached when no `calculationFactors` are
supplied: absorption from the nutrition summary, the meal-timing factor
from `get_meal_timing_factor(meal_type)` — called without a time, hence
read off the ambient wall clock — the activity impact from
`calculate_activity_impact`, the health multiplier from
`calculate_health_factors`, and no active insulin. -/
def calculate_suggested_insulin_default (pc : PatientConstants)
    (disease_factors medication_factors : List (String × ℚ))
    (active_conditions active_medications : List String)
    (n : Nutrition) (activities : List ActivityRecord)
    (blood_glucose : Option ℚ) (meal_type : String)
    (wall_clock_hour : ℕ) : Option InsulinResult :=
  calculate_suggested_insulin pc n
    { absorption_factor := n.absorption_factor
      meal_timing_factor := get_meal_timing_factor pc.meal_timing_factors
        pc.time_of_day_factors wall_clock_hour meal_type none
      activity_coefficient := calculate_activity_impact pc.activity_coefficients activities
      health_multiplier := calculate_health_factors disease_factors
        medication_factors active_conditions active_medications
      active_insulin := 0 }
    blood_glucose

/-- A neutral nutrition summary used to instantiate theorems: 10 g of
carbohydrate and nothing else. -/
def example_nutrition : Nutrition :=
  { carbs := 10, protein := 0, fat := 0, absorption_factor := 1 }

/-- Neutral adjustment factors (all multipliers `1`, no active insulin). -/
def neutral_factors : AdjustmentFactors :=
  { absorption_factor := 1, meal_timing_factor := 1, activity_coefficient := 1,
    health_multiplier := 1, active_insulin := 0 }

/-! ## Helper lemmas -/

lemma alookup_mem {α : Type} {l : List (String × α)} {k : String} {v : α}
    (h : alookup l k = some v) : (k, v) ∈ l := by
  induction l with
  | nil => simp [alookup] at h
  | cons p t ih =>
    obtain ⟨k', v'⟩ := p
    rw [alookup] at h
    split_ifs at h with hk
    · obtain rfl : v' = v := Option.some.injEq .. ▸ h
      subst hk
      exact List.mem_cons_self _ _
    · exact List.mem_cons_of_mem _ (ih h)

/-- The two measurement tables have disjoint key sets: no weight unit is
also a volume unit. -/
lemma weight_key_not_volume : ∀ p ∈ weight_base, alookup volume_base p.1 = none := by
  decide

lemma volume_val_ne_zero : ∀ p ∈ volume_base, p.2 ≠ 0 := by decide

lemma weight_val_ne_zero : ∀ p ∈ weight_base, p.2 ≠ 0 := by decide

/-! ## Claim C7 — `convert_to_standard` contract -/

/-- C7: `convert_to_standard(amount, unit)` returns `amount * table[unit]`
(the linear conversion to milliliters or grams) when `unit` is in the
volume or the weight table, returns the "not convertible" sentinel `none`
without raising when `unit` is absent from both tables, maps a zero amount
to zero, and scales and passes through a negative amount rather than
rejecting it. -/
theorem C7_convert_to_standard_contract :
    (∀ (a c : ℚ) (u : String), alookup volume_base u = some c →
        convert_to_standard a u = some (a * c)) ∧
    (∀ (a c : ℚ) (u : String), alookup weight_base u = some c →
        convert_to_standard a u = some (a * c)) ∧
    (∀ (a : ℚ) (u : String), alookup volume_base u = none →
        alookup weight_base u = none → convert_to_standard a u = none) ∧
    (∀ (c : ℚ) (u : String),
        alookup volume_base u = some c ∨ alookup weight_base u = some c →
        convert_to_standard 0 u = some 0) ∧
    (∀ (a c : ℚ) (u : String), a < 0 → alookup weight_base u = some c →
        convert_to_standard a u = some (a * c)) := by
  refine ⟨?_, ?_, ?_, ?_, ?_⟩
  · intro a c u h
    simp only [convert_to_standard, h]
  · intro a c u h
    simp only [convert_to_standard, weight_key_not_volume (u, c) (alookup_mem h), h]
  · intro a u h1 h2
    simp only [convert_to_standard, h1, h2]
  · intro c u h
    rcases h with h | h
    · simp only [convert_to_standard, h, zero_mul]
    · simp only [convert_to_standard, weight_key_not_volume (u, c) (alookup_mem h), h,
        zero_mul]
  · intro a c u _ h
    simp only [convert_to_standard, weight_key_not_volume (u, c) (alookup_mem h), h]

/-- Witness for C7 at concrete inputs: a volume unit, a weight unit, an
unknown unit, a zero amount, and a negative amount. -/
theorem C7_witness :
    convert_to_standard 3 "cup" = some 720 ∧
    convert_to_standard 5 "kg" = some 5000 ∧
    convert_to_standard 1 "piece" = none ∧
    convert_to_standard 0 "g" = some 0 ∧
    convert_to_standard (-2) "g" = some (-2) := by
  obtain ⟨h1, h2, h3, h4, h5⟩ := C7_convert_to_standard_contract
  refine ⟨?_, ?_, ?_, ?_, ?_⟩
  · rw [h1 3 240 "cup" rfl]; norm_num
  · rw [h2 5 1000 "kg" rfl]; norm_num
  · exact h3 1 "piece" rfl rfl
  · exact h4 1 "g" (Or.inr rfl)
  · rw [h5 (-2) 1 "g" (by norm_num) rfl]; norm_num

/-! ## Claim C8 — unit round trip within a family -/

/-- C8: for every amount `x` and every two units `a`, `b` of the same
measurement family (both volume or both weight),
`convert_between_units(convert_between_units(x, a, b), b, a)` recovers `x`
exactly (the rational model is exact, hence within any floating-point
tolerance). -/
theorem C8_unit_round_trip (x : ℚ) (a b : String) :
    ((∃ ca, alookup volume_base a = some ca) →
      (∃ cb, alookup volume_base b = some cb) →
      (convert_between_units x a b).bind
        (fun y => convert_between_units y b a) = some x) ∧
    ((∃ ca, alookup weight_base a = some ca) →
      (∃ cb, alookup weight_base b = some cb) →
      (convert_between_units x a b).bind
        (fun y => convert_between_units y b a) = some x) := by
  constructor
  · rintro ⟨ca, ha⟩ ⟨cb, hb⟩
    have hca : ca ≠ 0 := volume_val_ne_zero (a, ca) (alookup_mem ha)
    have hcb : cb ≠ 0 := volume_val_ne_zero (b, cb) (alookup_mem hb)
    simp only [convert_between_units, convert_to_standard, ha, hb, Option.some_bind]
    congr 1
    field_simp
  · rintro ⟨ca, ha⟩ ⟨cb, hb⟩
    have hca : ca ≠ 0 := weight_val_ne_zero (a, ca) (alookup_mem ha)
    have hcb : cb ≠ 0 := weight_val_ne_zero (b, cb) (alookup_mem hb)
    have hva : alookup volume_base a = none :=
      weight_key_not_volume (a, ca) (alookup_mem ha)
    have hvb : alookup volume_base b = none :=
      weight_key_not_volume (b, cb) (alookup_mem hb)
    simp only [convert_between_units, convert_to_standard, ha, hb, hva, hvb,
      Option.some_bind]
    congr 1
    field_simp

/-- Witness for C8: a volume-volume round trip (cup ↔ tablespoon) and a
weight-weight round trip (kg ↔ handful). -/
theorem C8_witness :
    (convert_between_units 7 "cup" "tablespoon").bind
      (fun y => convert_between_units y "tablespoon" "cup") = some 7 ∧
    (convert_between_units 9 "kg" "handful").bind
      (fun y => convert_between_units y "handful" "kg") = some 9 :=
  ⟨(C8_unit_round_trip 7 "cup" "tablespoon").1 ⟨240, rfl⟩ ⟨15, rfl⟩,
   (C8_unit_round_trip 9 "kg" "handful").2 ⟨1000, rfl⟩ ⟨30, rfl⟩⟩

/-! ## Claim C10 — silent cross-family conversion -/

/-- C10: for every volume unit `a` and weight unit `b` of the static
measurement tables and every amount `x`, `convert_between_units(x, a, b)`
returns the numeric value `(x * ml_per[a]) / grams_per[b]` rather than the
"not convertible" sentinel: the converter silently crosses measurement
families, implicitly equating one milliliter with one gram. -/
theorem C10_cross_family_conversion (x : ℚ) (a b : String) (ca cb : ℚ)
    (ha : alookup volume_base a = some ca)
    (hb : alookup weight_base b = some cb) :
    convert_between_units x a b = some (x * ca / cb) := by
  have hvb : alookup volume_base b = none :=
    weight_key_not_volume (b, cb) (alookup_mem hb)
  simp only [convert_between_units, convert_to_standard, ha, hvb, hb]

/-- Witness for C10: two cups convert to grams as `2 * 240 / 1 = 480`. -/
theorem C10_witness : convert_between_units 2 "cup" "g" = some 480 := by
  rw [C10_cross_family_conversion 2 "cup" "g" 240 1 rfl rfl]
  norm_num

/-! ## Claim C1 — health multiplier -/

lemma foldl_factor_eq_prod (tbl : List (String × ℚ)) (ks : List String) (init : ℚ) :
    ks.foldl (fun acc c => match alookup tbl c with
      | some f => acc * f
      | none => acc) init
      = init * (ks.map (fun c => (alookup tbl c).getD 1)).prod := by
  induction ks generalizing init with
  | nil => simp
  | cons c t ih =>
    simp only [List.foldl_cons, List.map_cons, List.prod_cons]
    cases h : alookup tbl c <;> simp only [h, ih, Option.getD_some, Option.getD_none] <;> ring

/-- C1 counterexample: on the shipped default factor tables, a user with
active conditions gestational diabetes, thyroid disorders and celiac
disease who takes corticosteroids gets health multiplier
`1.2 * 1.1 * 1.1 * 1.4 = 2.0328`, which lies outside `[0.1, 2.0]`:
`calculate_health_factors` never clamps. -/
theorem C1_counterexample :
    calculate_health_factors default_disease_factors default_medication_factors
        ["gestational_diabetes", "thyroid_disorders", "celiac_disease"]
        ["corticosteroids"] = 2541/1250 ∧
    ¬((2541/1250 : ℚ) ≤ 2) := by
  constructor
  · have h1 : alookup default_disease_factors "gestational_diabetes" = some 1.2 := rfl
    have h2 : alookup default_disease_factors "thyroid_disorders" = some 1.1 := rfl
    have h3 : alookup default_disease_factors "celiac_disease" = some 1.1 := rfl
    have h4 : alookup default_medication_factors "corticosteroids" = some 1.4 := rfl
    simp only [calculate_health_factors, List.foldl_cons, List.foldl_nil, h1, h2, h3, h4]
    norm_num
  · norm_num

/-- C1 (amended): `calculate_health_factors` returns the product of the
disease factors of the active conditions (missing entries contributing `1`)
times the product of the medication factors of the active medications, with
no clamping — the result is not confined to `[0.1, 2.0]`. -/
theorem C1_health_multiplier_unclamped
    (disease_factors medication_factors : List (String × ℚ))
    (active_conditions active_medications : List String) :
    calculate_health_factors disease_factors medication_factors
        active_conditions active_medications
      = (active_conditions.map (fun c => (alookup disease_factors c).getD 1)).prod
        * (active_medications.map (fun m => (alookup medication_factors m).getD 1)).prod := by
  simp only [calculate_health_factors, foldl_factor_eq_prod, one_mul]

/-! ## Claim C4 — correction insulin -/

/-- C4: with a blood-glucose reading, the correction term equals
`max(0, (blood_glucose - target_glucose) / correction_factor)`; with no
reading it is `0`; and for every reading below the target the correction
is exactly `0`, never negative. -/
theorem C4_correction_never_negative (target cf : ℚ) (hcf : 0 < cf) :
    (∀ b : ℚ, correction_insulin target cf (some b) = max 0 ((b - target) / cf)) ∧
    correction_insulin target cf none = 0 ∧
    (∀ b : ℚ, b < target → correction_insulin target cf (some b) = 0) := by
  refine ⟨?_, rfl, ?_⟩
  · intro b
    simp only [correction_insulin]
    split_ifs with h
    · exact (max_eq_left h.le).symm
    · exact (max_eq_right (not_lt.mp h)).symm
  · intro b hb
    simp only [correction_insulin]
    rw [if_pos (div_neg_of_neg_of_pos (sub_neg.mpr hb) hcf)]

/-- Witness for C4: target 100, correction factor 50; reading 180 gives the
max-formula, no reading gives 0, reading 80 (below target) gives 0. -/
theorem C4_witness :
    correction_insulin 100 50 (some 180) = max 0 ((180 - 100) / 50) ∧
    correction_insulin 100 50 none = 0 ∧
    correction_insulin 100 50 (some 80) = 0 :=
  ⟨(C4_correction_never_negative 100 50 (by norm_num)).1 180,
   (C4_correction_never_negative 100 50 (by norm_num)).2.1,
   (C4_correction_never_negative 100 50 (by norm_num)).2.2 80 (by norm_num)⟩

/-! ## Claim C5 — activity impact -/

lemma foldl_mul_map {α : Type} (f : α → ℚ) (l : List α) (init : ℚ) :
    l.foldl (fun acc a => acc * f a) init = init * (l.map f).prod := by
  induction l generalizing init with
  | nil => simp
  | cons a t ih => simp only [List.foldl_cons, List.map_cons, List.prod_cons, ih]; ring

/-- C5: `calculate_activity_impact` returns `1.0` on an empty activity
list, and otherwise the product over all activities of
`1 + (coefficient - 1) * min(duration_hours / 2, 1)`, where the
coefficient is looked up by the stringified level and defaults to `1.0`
for an unknown level; the duration weight saturates at 2 hours. -/
theorem C5_activity_impact (coeffs : List (String × ℚ)) (acts : List ActivityRecord) :
    calculate_activity_impact coeffs [] = 1 ∧
    calculate_activity_impact coeffs acts = (acts.map (activity_weight coeffs)).prod ∧
    (∀ (a : ActivityRecord) (q : ℚ), a.duration = .num q →
      activity_weight coeffs a
        = 1 + (((alookup coeffs (toString a.level)).getD 1) - 1) * min (q / 2) 1) ∧
    (∀ (a : ActivityRecord) (q : ℚ), a.duration = .num q → 2 ≤ q →
      activity_weight coeffs a = (alookup coeffs (toString a.level)).getD 1) := by
  refine ⟨rfl, ?_, ?_, ?_⟩
  · cases acts with
    | nil => simp [calculate_activity_impact]
    | cons a t =>
      simp only [calculate_activity_impact, foldl_mul_map, one_mul]
  · intro a q hq
    simp only [activity_weight, activity_duration_hours, hq]
  · intro a q hq h2
    simp only [activity_weight, activity_duration_hours, hq]
    rw [min_eq_right (by linarith : (1:ℚ) ≤ q / 2)]
    ring

/-! ## Claim C9 — malformed duration strings -/

/-- Witness for C5: the default coefficients give impact `1` on no
activities and `0.8` for a single vigorous 3-hour activity, whose weight
saturates to the raw coefficient beyond 2 hours. -/
theorem C5_witness :
    calculate_activity_impact default_activity_coefficients [] = 1 ∧
    calculate_activity_impact default_activity_coefficients
      [⟨2, .num 3⟩] = 4/5 ∧
    activity_weight default_activity_coefficients ⟨2, .num 3⟩
      = (alookup default_activity_coefficients (toString (2 : ℤ))).getD 1 := by
  have h := C5_activity_impact default_activity_coefficients [⟨2, .num 3⟩]
  have hsat := h.2.2.2 ⟨2, .num 3⟩ 3 rfl (by norm_num)
  refine ⟨h.1, ?_, hsat⟩
  rw [h.2.1, List.map_cons, List.map_nil, List.prod_cons, List.prod_nil, hsat]
  have hc : alookup default_activity_coefficients (toString (2 : ℤ)) = some 0.8 := rfl
  rw [hc]
  norm_num

/-- C9: in `calculate_activity_impact` a malformed duration string is
recovered locally — the computation continues — but with a default
duration of `0` hours, not the claimed 1 hour: the activity then
contributes no adjustment at all (weight exactly `1`), whereas a one-hour
default would contribute `1 + (0.8 - 1) * min(1/2, 1) = 0.9` for a level-2
activity under the default coefficients. -/
theorem C9_malformed_duration_defaults_to_zero :
    parse_hhmm "abc" = none ∧
    calculate_activity_impact default_activity_coefficients
      [⟨2, .str "abc"⟩] = 1 ∧
    calculate_activity_impact default_activity_coefficients
      [⟨2, .num 1⟩] = 9/10 ∧
    (1 : ℚ) ≠ 9/10 := by
  have hparse : parse_hhmm "abc" = none := rfl
  have hc : alookup default_activity_coefficients (toString (2 : ℤ)) = some 0.8 := rfl
  refine ⟨hparse, ?_, ?_, by norm_num⟩
  · have hd : activity_duration_hours (.str "abc") = 0 := rfl
    simp only [calculate_activity_impact, List.foldl_cons, List.foldl_nil,
      activity_weight, hd, hc]
    norm_num
  · have hd : activity_duration_hours (.num 1) = 1 := rfl
    simp only [calculate_activity_impact, List.foldl_cons, List.foldl_nil,
      activity_weight, hd, hc]
    rw [min_eq_left (by norm_num : (1:ℚ)/2 ≤ 1)]
    norm_num

/-! ## Claim C6 — medication timing decay phase -/

/-- C6 counterexample: thiazolidinediones are duration-based with factor
`0.8`, peak 48 h and duration 168 h, yet with a dose scheduled at 08:00 the
function returns `0.8` regardless of the current time — also in the
between-peak-and-duration window, where the claim requires a value never
below `1.0`, and beyond the duration window, where the claim requires
exactly `1.0`.  The undefined `safe_float_conversion` makes every call take
the exception path and return the static factor. -/
theorem C6_counterexample :
    calculate_medication_timing_factor 100 ["08:00"] 0.8 = 4/5 ∧
    calculate_medication_timing_factor 100 ["08:00"] 0.8 < 1 ∧
    calculate_medication_timing_factor 200 ["08:00"] 0.8 = 4/5 ∧
    ¬(calculate_medication_timing_factor 200 ["08:00"] 0.8 = 1) := by
  have h : calculate_medication_timing_factor 100 ["08:00"] 0.8 = 4/5 := by
    simp only [calculate_medication_timing_factor]
    norm_num
  have h2 : calculate_medication_timing_factor 200 ["08:00"] 0.8 = 4/5 := by
    simp only [calculate_medication_timing_factor]
    norm_num
  exact ⟨h, by rw [h]; norm_num, h2, by rw [h2]; norm_num⟩

/-- C6 (amended): `_calculate_medication_timing_factor` returns the
medication's static factor unchanged on every path — the empty-schedule
early return and the exception path taken because `safe_float_conversion`
is undefined — so no time-dependent decay of any shape is ever applied, at
any number of hours since the last dose. -/
theorem C6_constant_factor (current_time_hours : ℚ) (daily_times : List String)
    (med_factor : ℚ) :
    calculate_medication_timing_factor current_time_hours daily_times med_factor
      = med_factor := by
  cases daily_times <;> rfl

/-! ## Rounding lemmas -/

lemma round_half_even_nonneg {q : ℚ} (h : 0 ≤ q) : 0 ≤ round_half_even q := by
  have hf : (0:ℤ) ≤ ⌊q⌋ := Int.floor_nonneg.mpr h
  simp only [round_half_even]
  split_ifs <;> omega

lemma round_half_even_nonpos {q : ℚ} (h : q ≤ 0) : round_half_even q ≤ 0 := by
  have hf : ⌊q⌋ ≤ 0 := Int.floor_nonpos h
  have hfl : (⌊q⌋ : ℚ) ≤ q := Int.floor_le q
  simp only [round_half_even]
  split_ifs with h1 h2 h3
  · exact hf
  · have hlt : (⌊q⌋ : ℚ) < 0 := by linarith
    have : ⌊q⌋ < 0 := by exact_mod_cast hlt
    omega
  · exact hf
  · have hr : q - ⌊q⌋ = 1/2 := le_antisymm (not_lt.mp h2) (not_lt.mp h1)
    have hlt : (⌊q⌋ : ℚ) < 0 := by linarith
    have : ⌊q⌋ < 0 := by exact_mod_cast hlt
    omega

lemma round_half_even_eq_of_lt_half {q : ℚ} {z : ℤ} (h1 : (z:ℚ) ≤ q)
    (h2 : q - z < 1/2) : round_half_even q = z := by
  have hf : ⌊q⌋ = z := Int.floor_eq_iff.mpr ⟨h1, by linarith⟩
  simp only [round_half_even, hf]
  rw [if_pos h2]

lemma py_round1_zero : py_round1 0 = 0 := by
  have h : round_half_even ((0:ℚ) * 10) = 0 :=
    round_half_even_eq_of_lt_half (by norm_num) (by norm_num)
  simp only [py_round1, h, Int.cast_zero, zero_div]

/-- `max(0, round(x, 1)) = round(max(0, x), 1)`: clamping to zero commutes
with Python's rounding. -/
lemma max_zero_py_round1 (x : ℚ) : max 0 (py_round1 x) = py_round1 (max 0 x) := by
  rcases le_or_lt 0 x with hx | hx
  · rw [max_eq_right hx]
    have h0 : (0:ℚ) ≤ py_round1 x := by
      have := round_half_even_nonneg (mul_nonneg hx (by norm_num : (0:ℚ) ≤ 10))
      have hc : (0:ℚ) ≤ (round_half_even (x * 10) : ℚ) := by exact_mod_cast this
      exact div_nonneg hc (by norm_num)
    exact max_eq_right h0
  · rw [max_eq_left hx.le, py_round1_zero]
    have h0 : py_round1 x ≤ 0 := by
      have := round_half_even_nonpos
        (mul_nonpos_of_nonpos_of_nonneg hx.le (by norm_num : (0:ℚ) ≤ 10))
      have hc : (round_half_even (x * 10) : ℚ) ≤ 0 := by exact_mod_cast this
      exact div_nonpos_of_nonpos_of_nonneg hc (by norm_num)
    exact max_eq_left h0

/-! ## Claim C2 — final total and minimum-dose clamp -/

/-- C2: in `calculate_suggested_insulin` the final total equals
`round(max(0, post_active_total * health_multiplier), 1)`, except that
whenever `pre_active_total > 0` and that rounded value is below `0.5` the
total is clamped up to exactly `0.5`; consequently the function never
returns a total strictly between `0` and `0.5` when
`pre_active_total > 0`. -/
theorem C2_minimum_dose_clamp (pc : PatientConstants) (n : Nutrition)
    (f : AdjustmentFactors) (bg : Option ℚ) (r : InsulinResult)
    (h : calculate_suggested_insulin pc n f bg = some r) :
    r.total = (if 0 < pre_active_total pc n f bg ∧
          py_round1 (max 0 (post_active_total pc n f bg * f.health_multiplier)) < 1/2
        then 1/2
        else py_round1 (max 0 (post_active_total pc n f bg * f.health_multiplier))) ∧
    (0 < pre_active_total pc n f bg → ¬(0 < r.total ∧ r.total < 1/2)) := by
  rw [calculate_suggested_insulin] at h
  split_ifs at h
  simp only [Option.some.injEq] at h
  subst h
  have ht : (suggested_insulin_result pc n f bg).total = total_insulin pc n f bg := rfl
  constructor
  · rw [ht]
    simp only [total_insulin, final_insulin]
    rw [max_zero_py_round1]
  · intro hpre hcontra
    obtain ⟨hpos, hlt⟩ := hcontra
    rw [ht] at hpos hlt
    simp only [total_insulin] at hpos hlt
    set t := max 0 (py_round1 (final_insulin pc n f bg)) with htdef
    by_cases hc : 0 < pre_active_total pc n f bg ∧ t < 1/2
    · rw [if_pos hc] at hlt
      norm_num at hlt
    · rw [if_neg hc] at hlt
      exact hc ⟨hpre, hlt⟩

/-- Witness for C2: the default profile with 10 g of carbohydrate, neutral
factors and no blood-glucose reading yields total `1.0`, matching the
claimed formula. -/
theorem C2_witness :
    (suggested_insulin_result default_patient_constants example_nutrition
      neutral_factors none).total = 1 := by
  have hsome : calculate_suggested_insulin default_patient_constants example_nutrition
      neutral_factors none
      = some (suggested_insulin_result default_patient_constants example_nutrition
        neutral_factors none) := by
    rw [calculate_suggested_insulin,
      if_neg (by norm_num [default_patient_constants]), if_neg (by simp)]
  have h := C2_minimum_dose_clamp default_patient_constants example_nutrition
    neutral_factors none _ hsome
  rw [h.1]
  have hpre : pre_active_total default_patient_constants example_nutrition
      neutral_factors none = 1 := by
    simp only [pre_active_total, adjusted_insulin, base_insulin, total_carb_equiv,
      protein_carb_equiv, fat_carb_equiv, correction_insulin, example_nutrition,
      neutral_factors, default_patient_constants]
    norm_num
  have hpost : post_active_total default_patient_constants example_nutrition
      neutral_factors none = 1 := by
    rw [post_active_total, hpre]
    show max 0 (1 - neutral_factors.active_insulin) = 1
    rw [show (1:ℚ) - neutral_factors.active_insulin = 1 by norm_num [neutral_factors],
      max_eq_right (by norm_num : (0:ℚ) ≤ 1)]
  rw [hpre, hpost]
  have hhm : neutral_factors.health_multiplier = 1 := rfl
  rw [hhm]
  have hone : py_round1 (max 0 ((1:ℚ) * 1)) = 1 := by
    rw [show max 0 ((1:ℚ) * 1) = 1 by
      rw [mul_one, max_eq_right (by norm_num : (0:ℚ) ≤ 1)]]
    have h10 : round_half_even ((1:ℚ) * 10) = 10 :=
      round_half_even_eq_of_lt_half (by norm_num) (by norm_num)
    rw [py_round1, h10]
    norm_num
  rw [hone, if_neg (by norm_num)]

/-! ## Claim C3 — determinism and the wall clock -/

lemma default_path_total_eval (pc : PatientConstants)
    (dfs mfs : List (String × ℚ)) (n : Nutrition) (mt : String) (wch : ℕ) (v : ℚ)
    (hicr : ¬(pc.insulin_to_carb_ratio = 0))
    (heval : total_insulin pc n
      { absorption_factor := n.absorption_factor
        meal_timing_factor := get_meal_timing_factor pc.meal_timing_factors
          pc.time_of_day_factors wch mt none
        activity_coefficient := calculate_activity_impact pc.activity_coefficients []
        health_multiplier := calculate_health_factors dfs mfs [] []
        active_insulin := 0 } none = v) :
    (calculate_suggested_insulin_default pc dfs mfs [] [] n [] none mt wch).map
      InsulinResult.total = some v := by
  simp only [calculate_suggested_insulin_default, calculate_suggested_insulin]
  rw [if_neg hicr, if_neg (by simp)]
  simp only [Option.map_some', Option.some.injEq]
  exact heval

/-- C3 counterexample: `calculate_suggested_insulin`'s default-factor path
calls `get_meal_timing_factor(meal_type)` with no time argument, which
falls back to `datetime.now()`.  Two calls with identical explicit inputs
(default profile, 10 g carbohydrate, breakfast, no explicit time) return
total `1.4` when the ambient wall clock reads hour 8 but total `1.2` when
it reads hour 12: the engine reads the wall clock internally and is not a
deterministic function of its explicit inputs. -/
theorem C3_counterexample :
    (calculate_suggested_insulin_default default_patient_constants
        default_disease_factors default_medication_factors [] []
        example_nutrition [] none "breakfast" 8).map InsulinResult.total
      = some (7/5) ∧
    (calculate_suggested_insulin_default default_patient_constants
        default_disease_factors default_medication_factors [] []
        example_nutrition [] none "breakfast" 12).map InsulinResult.total
      = some (6/5) ∧
    (7/5 : ℚ) ≠ 6/5 := by
  have hai : calculate_activity_impact default_activity_coefficients [] = 1 := rfl
  have hhm : calculate_health_factors default_disease_factors
      default_medication_factors [] [] = 1 := by
    simp [calculate_health_factors]
  refine ⟨?_, ?_, by norm_num⟩
  · apply default_path_total_eval _ _ _ _ _ _ _
      (by norm_num [default_patient_constants])
    have hmtf : get_meal_timing_factor default_meal_timing_factors
        default_time_of_day_factors 8 "breakfast" none = 36/25 := by
      have hf : find_time_of_day_factor default_time_of_day_factors 8 = some 1.2 := rfl
      have hb : alookup default_meal_timing_factors "breakfast" = some 1.2 := rfl
      simp only [get_meal_timing_factor, Option.getD_none, hf, hb, Option.getD_some]
      norm_num
    have h14 : round_half_even ((36/25 : ℚ) * 10) = 14 := by
      apply round_half_even_eq_of_lt_half <;> norm_num
    have hr : py_round1 (36/25 : ℚ) = 7/5 := by
      rw [py_round1, h14]
      norm_num
    simp only [default_patient_constants, example_nutrition] at hmtf hai hhm ⊢
    rw [hmtf, hai, hhm]
    simp only [total_insulin, final_insulin, post_active_total, pre_active_total,
      adjusted_insulin, base_insulin, total_carb_equiv, protein_carb_equiv,
      fat_carb_equiv, correction_insulin]
    norm_num [max_def, hr]
  · apply default_path_total_eval _ _ _ _ _ _ _
      (by norm_num [default_patient_constants])
    have hmtf : get_meal_timing_factor default_meal_timing_factors
        default_time_of_day_factors 12 "breakfast" none = 6/5 := by
      have hf : find_time_of_day_factor default_time_of_day_factors 12 = some 1 := rfl
      have hb : alookup default_meal_timing_factors "breakfast" = some 1.2 := rfl
      simp only [get_meal_timing_factor, Option.getD_none, hf, hb, Option.getD_some]
      norm_num
    have h12 : round_half_even ((6/5 : ℚ) * 10) = 12 := by
      apply round_half_even_eq_of_lt_half <;> norm_num
    have hr : py_round1 (6/5 : ℚ) = 6/5 := by
      rw [py_round1, h12]
      norm_num
    simp only [default_patient_constants, example_nutrition] at hmtf hai hhm ⊢
    rw [hmtf, hai, hhm]
    simp only [total_insulin, final_insulin, post_active_total, pre_active_total,
      adjusted_insulin, base_insulin, total_carb_equiv, protein_carb_equiv,
      fat_carb_equiv, correction_insulin]
    norm_num [max_def, hr]

/-- C3 (amended): the computation is a pure function of its explicit inputs
together with the ambient wall-clock hour, which `get_meal_timing_factor`
consults exactly when its optional time argument is omitted; when an
explicit time is supplied, the result is independent of the wall clock. -/
theorem C3_explicit_time_ignores_clock
    (mtf : List (String × ℚ)) (tdf : List (String × TimeOfDayEntry))
    (clock1 clock2 : ℕ) (meal_type : String) (t : ℕ) :
    get_meal_timing_factor mtf tdf clock1 meal_type (some t)
      = get_meal_timing_factor mtf tdf clock2 meal_type (some t) := rfl
